import Mathlib

/-!
Shallow embedding of the decision core of the `huzzah_weather` station
(`src/main.py`): the forecast accessors `Network.getRain` / `Network.getSnow` /
`Network.getTemp`, the display aggregation of `WeatherStation.updateDisplay`
(lines 243-246), and the advisory decision `WeatherStation.logic`
(lines 268-299).

Numbers are modelled as rationals.  Python exceptions that can escape the
modelled code are made explicit in an error type: the source catches only
`ValueError` around `max`/`min` of the forecast lists, so other exceptions
(`KeyError` from a slot without a temperature, `UnboundLocalError` when
`mintemp` is referenced without having been assigned, `TypeError` from
concatenating a string with a float, `IndexError` from indexing an empty
list) propagate out of `logic` and are modelled as error results.
-/

namespace HuzzahWeather

/-- One forecast slot as consumed from the parsed OpenWeatherMap document:
`i["main"]["temp"]`, `i["rain"]["3h"]`, `i["snow"]["3h"]`.  A `none` field
means the upstream document omits that key (or it fails to convert),
so the corresponding lookup raises in Python. -/
structure Slot where
  temp : Option ℚ
  rain3h : Option ℚ
  snow3h : Option ℚ
deriving DecidableEq

/-- The Python exceptions that can escape the modelled code paths. -/
inductive PyErr where
  /-- Python `KeyError`: a slot lacks `["main"]["temp"]` in `Network.getTemp`
  (no per-slot handler there, unlike `getRain`/`getSnow`). -/
  | keyError
  /-- Python `ValueError`: `max`/`min` of an empty list, where not caught. -/
  | valueError
  /-- Python `UnboundLocalError` (a `NameError`): `mintemp` referenced in `logic`
  although the `except ValueError` branch only assigned `maxtemp`. -/
  | nameError
  /-- Python `TypeError`: `"biking: " + templist[0]` concatenates `str` and `float`
  (the pixel has already been set to `GREEN` when this is raised). -/
  | typeError
  /-- Python `IndexError`: `templist[0]` on an empty list. -/
  | indexError
deriving DecidableEq

instance {ε α : Type} [DecidableEq ε] [DecidableEq α] : DecidableEq (Except ε α) := fun
  | .error e, .error f =>
    if h : e = f then .isTrue (by rw [h]) else .isFalse (by simp [h])
  | .error _, .ok _ => .isFalse (by simp)
  | .ok _, .error _ => .isFalse (by simp)
  | .ok a, .ok b =>
    if h : a = b then .isTrue (by rw [h]) else .isFalse (by simp [h])

/-- Model of `Network.getRain` (lines 122-131): collects `float(i["rain"]["3h"])` over
all slots; any failure for a slot is swallowed by the bare `except` and the
slot is skipped; a falsy `weatherdata` yields `[]`. -/
def getRain : Option (List Slot) → List ℚ
  | none => []
  | some l => l.filterMap Slot.rain3h

/-- Model of `Network.getSnow` (lines 133-142): same shape as `getRain` for
`i["snow"]["3h"]`. -/
def getSnow : Option (List Slot) → List ℚ
  | none => []
  | some l => l.filterMap Slot.snow3h

/-- The slot walk of `Network.getTemp`: the Python `for` loop appends
`float(i["main"]["temp"])` per slot; the first missing temperature raises
`KeyError` and aborts the whole call. -/
def getTempList : List Slot → Except PyErr (List ℚ)
  | [] => .ok []
  | s :: rest =>
    match s.temp with
    | none => .error .keyError
    | some t => (getTempList rest).map (t :: ·)

/-- Model of `Network.getTemp` (lines 144-150): collects `float(i["main"]["temp"])`
over all slots with NO per-slot exception handler, so the first slot without
a temperature raises `KeyError`, which propagates to the caller; a falsy
`weatherdata` yields `[]`. -/
def getTemp : Option (List Slot) → Except PyErr (List ℚ)
  | none => .ok []
  | some l => getTempList l

/-- Python `max(l)` for a list of floats: `none` models the `ValueError`
raised on an empty list. -/
def pyMax : List ℚ → Option ℚ
  | [] => none
  | x :: xs => some (xs.foldl max x)

/-- Python `min(l)` for a list of floats: `none` models the `ValueError`
raised on an empty list. -/
def pyMin : List ℚ → Option ℚ
  | [] => none
  | x :: xs => some (xs.foldl min x)

/-- Neo-pixel colors (lines 33-36). -/
abbrev Color := Nat × Nat × Nat

/-- Color `RED = (100, 0, 0)` — forecast rain and door open. -/
def RED : Color := (100, 0, 0)

/-- Color `GREEN = (0, 100, 0)` — no rain and warm, good for biking. -/
def GREEN : Color := (0, 100, 0)

/-- Color `BLUE = (0, 0, 100)` — humidity alert. -/
def BLUE : Color := (0, 0, 100)

/-- Color `BLACK = (0, 0, 0)` — switch it off. -/
def BLACK : Color := (0, 0, 0)

/-- The station state read by one `logic` / `updateDisplay` evaluation:
the current forecast document (`net.weatherdata`, `none` when no fetch
succeeded), the local DHT22 readings, and the door pin. -/
structure WeatherStation where
  weatherdata : Option (List Slot)
  /-- Reading `dht.temperature()` — shown on the display, never read by `logic`. -/
  temperature : ℚ
  /-- Reading `dht.humidity()` — the one mandatory sensor input of `logic`. -/
  humidity : ℚ
  /-- Truthiness of `doorOpen()`, the door pin value. -/
  door : Bool
deriving DecidableEq

/-- Lines 270-273 of `logic`: `rain = max(self.net.getRain())` with
`except ValueError: rain = 0`. -/
def rainOf (wd : Option (List Slot)) : ℚ := (pyMax (getRain wd)).getD 0

/-- Line 283: `rt = 0.001`, the rain threshold. -/
def rt : ℚ := mkRat 1 1000

/-- Python `str` of a float temperature value. -/
def pyStr (q : ℚ) : String := toString q

/-- Lines 290-298 of `logic`: the `elif`/`else` chain after the biking test
(`rain > rt and doorOpen()`, then the humidity band, then the fallback,
whose message indexes `templist[0]`). -/
def elifChain (rain hum : ℚ) (door : Bool) (templist : List ℚ) :
    Except PyErr (Color × String) :=
  if rain > rt ∧ door = true then .ok (RED, "HODOR")
  else if hum < 40 ∨ hum > 60 then .ok (BLUE, "Humidity !")
  else
    match templist with
    | [] => .error .indexError
    | t :: _ => .ok (BLACK, "aussen: " ++ pyStr t)

/-- Model of `WeatherStation.logic` (lines 268-299).  `rain` is computed first (its
empty-list `ValueError` is caught and defaulted to 0).  `getTemp` may raise
`KeyError` (only `ValueError` is caught there, so it propagates).  When
`templist` is empty, `max`/`min` raise `ValueError`, the handler assigns only
`maxtemp = 0`, and `mintemp` stays unbound; Python short-circuits
`rain < rt and mintemp > 10`, so `mintemp` is only dereferenced (raising
`UnboundLocalError`) when `rain < rt` holds.  The biking branch sets the
pixel `GREEN` and then raises `TypeError` building `"biking: " + templist[0]`
(`maxtemp` itself is never used after its assignment). -/
def logic : WeatherStation → Except PyErr (Color × String)
  | ⟨wd, _, hum, door⟩ =>
    let rain := rainOf wd
    match getTemp wd with
    | .error e => .error e
    | .ok templist =>
      if rain < rt then
        match pyMin templist with
        | none => .error .nameError
        | some mintemp =>
          if mintemp > 10 then .error .typeError
          else elifChain rain hum door templist
      else elifChain rain hum door templist

/-- Model of `WeatherStation.updateDisplay` lines 243-246: `temp = self.net.getTemp()`
then `min(temp)` / `max(temp)` with no exception handler, so an empty
forecast raises `ValueError` here (and a slot without a temperature already
raised `KeyError` inside `getTemp`). -/
def updateDisplayForecastTemps (wd : Option (List Slot)) :
    Except PyErr (ℚ × ℚ) :=
  match getTemp wd with
  | .error e => .error e
  | .ok temps =>
    match pyMin temps, pyMax temps with
    | some mn, some mx => .ok (mn, mx)
    | _, _ => .error .valueError

/-!
A second reading of the decision procedure, following the spec's words: an
ordered list of advisory rules, tried one after the other, the first rule
whose condition holds winning, with the neutral branch as the fallback when
no rule matched.  Comparing `logic` with this dispatcher settles the claim
that the rules are tested in a fixed order with first-match-wins semantics.
Evaluating a condition may itself raise (Python evaluates
`rain < rt and mintemp > 10` left to right and dereferencing the unbound
`mintemp` raises), so conditions return `Except`.
-/

/-- The data available to the decision rules once `logic` has finished its
preprocessing: the defaulted rain maximum, the forecast temperature list,
the local humidity and the door state. -/
structure RuleInput where
  rain : ℚ
  templist : List ℚ
  hum : ℚ
  door : Bool

/-- One advisory rule: a condition (whose evaluation may raise) and the
outcome produced when the condition is the first to hold. -/
structure AdvRule where
  cond : RuleInput → Except PyErr Bool
  outcome : RuleInput → Except PyErr (Color × String)

/-- Rule 1 (Biking), line 286: `rain < rt and mintemp > 10`; evaluating the
second conjunct raises `UnboundLocalError` when `mintemp` is unbound (empty
temperature list); its outcome is the biking branch, which raises
`TypeError` after setting the pixel `GREEN`. -/
def bikingRule : AdvRule where
  cond i :=
    if i.rain < rt then
      match pyMin i.templist with
      | none => .error .nameError
      | some mintemp => .ok (decide (mintemp > 10))
    else .ok false
  outcome _ := .error .typeError

/-- Rule 2 (DoorAlert), line 290: `rain > rt and self.doorOpen()` with the
fixed `"HODOR"` message and a `RED` pixel. -/
def doorRule : AdvRule where
  cond i := .ok (decide (i.rain > rt) && i.door)
  outcome _ := .ok (RED, "HODOR")

/-- Rule 3 (HumidityAlert), line 293: `hum < 40 or hum > 60` with the fixed
`"Humidity !"` message and a `BLUE` pixel. -/
def humidityRule : AdvRule where
  cond i := .ok (decide (i.hum < 40) || decide (i.hum > 60))
  outcome _ := .ok (BLUE, "Humidity !")

/-- Rule 4 (Neutral fallback), lines 296-298: `BLACK` pixel and
`"aussen: " + str(templist[0])` (an `IndexError` on an empty list). -/
def neutralOutcome (i : RuleInput) : Except PyErr (Color × String) :=
  match i.templist with
  | [] => .error .indexError
  | t :: _ => .ok (BLACK, "aussen: " ++ pyStr t)

/-- First-match-wins dispatch over an ordered rule list: conditions are
evaluated in order, an error while evaluating a condition propagates, the
first rule whose condition holds contributes the outcome, and the neutral
fallback fires when no rule matched. -/
def firstMatch (i : RuleInput) : List AdvRule → Except PyErr (Color × String)
  | [] => neutralOutcome i
  | r :: rs =>
    match r.cond i with
    | .error e => .error e
    | .ok true => r.outcome i
    | .ok false => firstMatch i rs

/-- The decision order of the spec: Biking, then DoorAlert, then
HumidityAlert (Neutral being the fallback of the dispatcher). -/
def advisoryRules : List AdvRule := [bikingRule, doorRule, humidityRule]

/-- The decision `logic` re-expressed as rule dispatch: the same preprocessing (defaulted
rain, fallible temperature fetch), then first-match dispatch over
`advisoryRules`. -/
def logicAsRules : WeatherStation → Except PyErr (Color × String)
  | ⟨wd, _, hum, door⟩ =>
    match getTemp wd with
    | .error e => .error e
    | .ok templist =>
      firstMatch ⟨rainOf wd, templist, hum, door⟩ advisoryRules

/-! ## Helper lemmas -/

/-- Function `pyMin` is the library `List.min?`. -/
theorem pyMin_eq_min? (l : List ℚ) : pyMin l = l.min? := by
  cases l <;> rfl

/-- Function `pyMax` is the library `List.max?`. -/
theorem pyMax_eq_max? (l : List ℚ) : pyMax l = l.max? := by
  cases l <;> rfl

instance : Std.Antisymm (fun (a b : ℚ) => a ≤ b) :=
  ⟨fun h1 h2 => le_antisymm h1 h2⟩

/-- A successful `pyMin` yields an element of the list that bounds it from
below. -/
theorem pyMin_mem_le {l : List ℚ} {m : ℚ} (h : pyMin l = some m) :
    m ∈ l ∧ ∀ x ∈ l, m ≤ x := by
  rw [pyMin_eq_min?] at h
  rw [List.min?_eq_some_iff (fun a => le_refl a) (fun a b => min_choice a b)
    (fun _ _ _ => le_min_iff)] at h
  exact h

/-- A successful `pyMax` yields an element of the list that bounds it from
above. -/
theorem pyMax_mem_le {l : List ℚ} {m : ℚ} (h : pyMax l = some m) :
    m ∈ l ∧ ∀ x ∈ l, x ≤ m := by
  rw [pyMax_eq_max?] at h
  rw [List.max?_eq_some_iff (fun a => le_refl a) (fun a b => max_choice a b)
    (fun _ _ _ => max_le_iff)] at h
  exact h

/-- When every slot carries a temperature, `getTemp` succeeds and returns
exactly those temperatures, in slot order. -/
theorem getTemp_of_all_some (l : List Slot)
    (h : ∀ s ∈ l, (s.temp).isSome = true) :
    getTemp (some l) = .ok (l.filterMap Slot.temp) := by
  show getTempList l = .ok (l.filterMap Slot.temp)
  induction l with
  | nil => rfl
  | cons s rest ih =>
    have hs : (s.temp).isSome = true := h s (List.mem_cons_self s rest)
    obtain ⟨t, ht⟩ := Option.isSome_iff_exists.mp hs
    have ihr := ih (fun x hx => h x (List.mem_cons_of_mem s hx))
    simp only [getTempList, ht, ihr, Except.map, List.filterMap_cons]

/-- The door state is consulted only by the first condition of the
`elif` chain; when the rain maximum is not above the threshold that
condition is false, so the chain's value does not depend on the door. -/
theorem elifChain_door_irrelevant (rain hum : ℚ) (templist : List ℚ)
    (h : ¬ rain > rt) (d1 d2 : Bool) :
    elifChain rain hum d1 templist = elifChain rain hum d2 templist := by
  unfold elifChain
  rw [if_neg (fun hc : rain > rt ∧ d1 = true => h hc.1),
    if_neg (fun hc : rain > rt ∧ d2 = true => h hc.1)]

/-- The `elif` chain of `logic` agrees with first-match dispatch of the
door rule then the humidity rule (with the neutral fallback). -/
theorem elifChain_eq_firstMatch (rain hum : ℚ) (door : Bool)
    (templist : List ℚ) :
    elifChain rain hum door templist =
      firstMatch ⟨rain, templist, hum, door⟩ [doorRule, humidityRule] := by
  cases door <;> by_cases hr : rain > rt <;>
    by_cases h1 : hum < 40 <;> by_cases h2 : hum > 60 <;>
      simp [elifChain, firstMatch, doorRule, humidityRule, neutralOutcome,
        hr, h1, h2]

/-- Whatever the `elif` chain returns, it is never the door-alert outcome
when the rain maximum is not above the threshold. -/
theorem elifChain_ne_hodor (rain hum : ℚ) (door : Bool) (templist : List ℚ)
    (h : ¬ rain > rt) :
    elifChain rain hum door templist ≠ .ok (RED, "HODOR") := by
  unfold elifChain
  rw [if_neg (fun hc : rain > rt ∧ door = true => h hc.1)]
  split
  · intro hEq
    injection hEq with h1
    injection h1 with hcol _
    exact absurd hcol (by decide)
  · cases templist with
    | nil => intro hEq; simp at hEq
    | cons t ts =>
      intro hEq
      injection hEq with h1
      injection h1 with hcol _
      exact absurd hcol (by decide)

/-! ## Claims -/

/-- C1: the spec claims the decision core never raises on missing optional
forecast data — but on an absent forecast (`weatherdata = None`, so the
temperature list is empty) `logic` dereferences the unbound `mintemp` and
raises `UnboundLocalError`, and on a slot without a temperature `getTemp`
raises an uncaught `KeyError`.  The claim is right about the intent (the
`except ValueError` handler was clearly meant to provide a fallback, but it
assigns only the unused `maxtemp`); the code is wrong. -/
theorem c1_logic_raises_on_missing_data :
    logic ⟨none, 22, 50, false⟩ = .error .nameError ∧
    logic ⟨some [⟨none, none, none⟩], 22, 50, false⟩ = .error .keyError := by
  constructor <;> decide

/-- C2: the spec claims the empty forecast is aggregated to defaults without
error and that `evaluate` with doorOpen = true and humidity = 50 then yields
the neutral advisory — but `logic` on the empty `ForecastSet` raises
`UnboundLocalError` (`mintemp` unbound after the `ValueError` handler), and
the display aggregation of `updateDisplay` raises `ValueError` on
`min([])`. -/
theorem c2_empty_forecast_crashes :
    logic ⟨some [], 22, 50, true⟩ = .error .nameError ∧
    updateDisplayForecastTemps (some []) = .error .valueError := by
  constructor <;> decide

/-- C3: the spec claims a dry, warm forecast yields the Biking advisory with
a message including the slot-0 temperature — but the biking branch computes
`"biking: " + templist[0]`, concatenating `str` and `float`, which raises
`TypeError` (after the pixel was set `GREEN`); the neighbouring neutral
branch uses `str(...)`, so the missing conversion is a slip. -/
theorem c3_biking_branch_raises :
    logic ⟨some [⟨some 15, some 0, none⟩], 22, 50, false⟩
      = .error .typeError := by
  decide

/-- C4: `logic` tests the rules in the fixed order Biking, DoorAlert,
HumidityAlert, Neutral, with first-match-wins semantics: it coincides with
dispatching the ordered rule list `advisoryRules` and falling back to the
neutral outcome.  (The Biking and DoorAlert rain conditions,
`rain < rt` and `rain > rt`, exclude each other, so the claim's
"both conditions hold" instance is subsumed by this ordering.) -/
theorem c4_first_match_order (ws : WeatherStation) :
    logic ws = logicAsRules ws := by
  obtain ⟨wd, temp, hum, door⟩ := ws
  simp only [logic, logicAsRules]
  cases hT : getTemp wd with
  | error e => rfl
  | ok templist =>
    by_cases hr : rainOf wd < rt
    · cases hm : pyMin templist with
      | none =>
        simp [firstMatch, advisoryRules, bikingRule, hr, hm]
      | some m =>
        by_cases hmt : m > 10
        · simp [firstMatch, advisoryRules, bikingRule, hr, hm, hmt]
        · simp [firstMatch, advisoryRules, bikingRule, hr, hm, hmt,
            elifChain_eq_firstMatch]
    · simp [firstMatch, advisoryRules, bikingRule, hr,
        elifChain_eq_firstMatch]

/-- When the `elif` chain produces a `BLACK` result, it is the fallback
branch: the temperature list is nonempty and the message is
`"aussen: "` followed by its head. -/
theorem elifChain_black {rain hum : ℚ} {door : Bool} {templist : List ℚ}
    {c : Color} {s : String}
    (h : elifChain rain hum door templist = .ok (c, s)) (hc : c = BLACK) :
    ∃ t ts, templist = t :: ts ∧ s = "aussen: " ++ pyStr t := by
  unfold elifChain at h
  split_ifs at h
  · injection h with h1
    injection h1 with hcol _
    rw [hc] at hcol
    exact absurd hcol (by decide)
  · injection h with h1
    injection h1 with hcol _
    rw [hc] at hcol
    exact absurd hcol (by decide)
  · cases templist with
    | nil => simp at h
    | cons t ts =>
      injection h with h1
      injection h1 with _ hs
      exact ⟨t, ts, rfl, hs.symm⟩

/-- C5 counterexample: at a concrete input where no rule 1-3 matches, the
fallback message is `"aussen: 5"` — built from the nearest forecast slot's
temperature (5), not from the local sensor reading, and unchanged when that
local reading moves from 22 to 99; it is also not empty.  This refutes the
claim that the neutral message includes the local/current sensor
temperature. -/
theorem c5_counterexample :
    logic ⟨some [⟨some 5, some 0, none⟩], 22, 50, false⟩
      = .ok (BLACK, "aussen: 5") ∧
    logic ⟨some [⟨some 5, some 0, none⟩], 99, 50, false⟩
      = .ok (BLACK, "aussen: 5") := by
  constructor <;> decide

/-- C5 (amended): when no rule 1-3 matches, `logic` returns the `BLACK`
indicator with message `"aussen: "` followed by the nearest (slot 0)
FORECAST temperature — not the local sensor reading; the message is never
empty (an empty forecast instead crashes before reaching this branch). -/
theorem c5_neutral_message_from_forecast (wd : Option (List Slot))
    (temp hum : ℚ) (door : Bool) (c : Color) (s : String)
    (hok : logic ⟨wd, temp, hum, door⟩ = .ok (c, s)) (hc : c = BLACK) :
    ∃ t ts, getTemp wd = .ok (t :: ts) ∧ s = "aussen: " ++ pyStr t := by
  simp only [logic] at hok
  split at hok
  next e hT => simp at hok
  next templist hT =>
    split at hok
    next hr =>
      split at hok
      next hm => simp at hok
      next m hm =>
        split at hok
        next hmt => simp at hok
        next hmt =>
          obtain ⟨t, ts, htl, hs⟩ := elifChain_black hok hc
          exact ⟨t, ts, by rw [hT, htl], hs⟩
    next hr =>
      obtain ⟨t, ts, htl, hs⟩ := elifChain_black hok hc
      exact ⟨t, ts, by rw [hT, htl], hs⟩

/-- Witness for the amended C5 at a concrete neutral input. -/
theorem c5_neutral_message_witness :
    ∃ t ts, getTemp (some [⟨some 5, some 0, none⟩]) = .ok (t :: ts) ∧
      "aussen: 5" = "aussen: " ++ pyStr t :=
  c5_neutral_message_from_forecast (some [⟨some 5, some 0, none⟩])
    22 50 false BLACK "aussen: 5" (by decide) rfl

/-- C6 counterexample: a slot without a temperature is NOT tolerated —
`getTemp` raises `KeyError` (there is no per-slot handler, unlike
`getRain`/`getSnow`), and the error propagates out of `logic`. -/
theorem c6_counterexample :
    getTemp (some [⟨none, some 2, none⟩]) = .error .keyError ∧
    logic ⟨some [⟨none, some 2, none⟩], 22, 50, true⟩
      = .error .keyError := by
  constructor <;> decide

/-- C6 (amended): the temperature summary is min and max over the
temperatures of ALL slots, every slot being required to carry one: under
that requirement `getTemp` returns exactly the carried temperatures, whose
`pyMin`/`pyMax` are the least/greatest carried value, and the empty
forecast yields no minimum (so `mintemp` stays undefined).  A slot without
a temperature instead raises an uncaught `KeyError`. -/
theorem c6_temp_summary (l : List Slot)
    (h : ∀ s ∈ l, (s.temp).isSome = true) :
    getTemp (some l) = .ok (l.filterMap Slot.temp) ∧
    (∀ m, pyMin (l.filterMap Slot.temp) = some m →
      m ∈ l.filterMap Slot.temp ∧ ∀ x ∈ l.filterMap Slot.temp, m ≤ x) ∧
    (∀ m, pyMax (l.filterMap Slot.temp) = some m →
      m ∈ l.filterMap Slot.temp ∧ ∀ x ∈ l.filterMap Slot.temp, x ≤ m) ∧
    (l = [] → pyMin (l.filterMap Slot.temp) = none) :=
  ⟨getTemp_of_all_some l h,
   fun _ hm => pyMin_mem_le hm,
   fun _ hm => pyMax_mem_le hm,
   fun hl => by subst hl; rfl⟩

/-- Witness for the amended C6 at a concrete two-slot forecast. -/
theorem c6_temp_summary_witness :
    (∀ s ∈ [Slot.mk (some 7) none none, Slot.mk (some 3) (some 1) none],
      (s.temp).isSome = true) ∧
    getTemp (some [Slot.mk (some 7) none none, Slot.mk (some 3) (some 1) none])
      = .ok ([Slot.mk (some 7) none none,
          Slot.mk (some 3) (some 1) none].filterMap Slot.temp) :=
  ⟨by decide, (c6_temp_summary _ (by decide)).1⟩

/-- C7: when no forecast slot carries a rain value, the rain summary
defaults to 0 and `logic` can never return the door-alert outcome,
whatever the door state (and whatever else happens: the remaining outcomes
are the other branches or the propagated exceptions). -/
theorem c7_no_rain_no_dooralert (wd : Option (List Slot)) (temp hum : ℚ)
    (door : Bool) (h : ∀ l, wd = some l → ∀ s ∈ l, s.rain3h = none) :
    rainOf wd = 0 ∧ logic ⟨wd, temp, hum, door⟩ ≠ .ok (RED, "HODOR") := by
  have hrain : getRain wd = [] := by
    cases hw : wd with
    | none => rfl
    | some l =>
      simp only [getRain]
      rw [List.filterMap_eq_nil_iff]
      exact h l hw
  have h0 : rainOf wd = 0 := by
    rw [rainOf, hrain]; rfl
  refine ⟨h0, ?_⟩
  simp only [logic, h0]
  split
  next e hT => simp
  next templist hT =>
    rw [if_pos (by decide : (0 : ℚ) < rt)]
    split
    next hm => simp
    next m hm =>
      by_cases hmt : m > 10
      · rw [if_pos hmt]; simp
      · rw [if_neg hmt]
        exact elifChain_ne_hodor 0 hum door templist (by decide)

/-- Witness for C7: a rainless one-slot forecast with the door open ends in
the biking branch, not the door alert. -/
theorem c7_witness :
    (∀ l, (some [Slot.mk (some 15) none none] : Option (List Slot)) = some l →
      ∀ s ∈ l, s.rain3h = none) ∧
    (rainOf (some [Slot.mk (some 15) none none]) = 0 ∧
      logic ⟨some [⟨some 15, none, none⟩], 22, 50, true⟩
        ≠ .ok (RED, "HODOR")) :=
  ⟨fun l hl => by cases hl; decide,
   c7_no_rain_no_dooralert (some [⟨some 15, none, none⟩]) 22 50 true
     (fun l hl => by cases hl; decide)⟩

/-- C8: the biking rain comparison is strictly less-than: a forecast whose
rain maximum is exactly `rt` (0.001) does not satisfy it (with warm
temperatures, an out-of-band humidity and an open door the evaluation falls
through both rule 1 and rule 2 to the humidity alert), while rain maximum
0.0009 does satisfy it (the biking branch fires, observable as its
`TypeError`). -/
theorem c8_rain_threshold_strict :
    ¬ rt < rt ∧ mkRat 9 10000 < rt ∧
    logic ⟨some [⟨some 15, some rt, none⟩], 22, 70, true⟩
      = .ok (BLUE, "Humidity !") ∧
    logic ⟨some [⟨some 15, some (mkRat 9 10000), none⟩], 22, 70, true⟩
      = .error .typeError :=
  ⟨by decide, by decide, by decide, by decide⟩

/-- C9: the humidity band comparisons are strict: at humidity 40 and 60 the
humidity alert does not fire (the evaluation falls through to the neutral
branch), while at 39.9 and 60.1 it fires. -/
theorem c9_humidity_band_strict :
    logic ⟨some [⟨some 5, some 0, none⟩], 22, 40, false⟩
      = .ok (BLACK, "aussen: 5") ∧
    logic ⟨some [⟨some 5, some 0, none⟩], 22, 60, false⟩
      = .ok (BLACK, "aussen: 5") ∧
    logic ⟨some [⟨some 5, some 0, none⟩], 22, mkRat 399 10, false⟩
      = .ok (BLUE, "Humidity !") ∧
    logic ⟨some [⟨some 5, some 0, none⟩], 22, mkRat 601 10, false⟩
      = .ok (BLUE, "Humidity !") :=
  ⟨by decide, by decide, by decide, by decide⟩

/-- C10: two evaluations whose inputs differ only in the door state give
the same result whenever the rain summary is below the threshold: the door
is consulted only in rule 2, whose rain condition is then false. -/
theorem c10_door_noninterference (wd : Option (List Slot)) (temp hum : ℚ)
    (d1 d2 : Bool) (h : rainOf wd < rt) :
    logic ⟨wd, temp, hum, d1⟩ = logic ⟨wd, temp, hum, d2⟩ := by
  simp only [logic]
  split
  next e hT => rfl
  next templist hT =>
    rw [if_pos h, if_pos h]
    split
    next hm => rfl
    next m hm =>
      by_cases hmt : m > 10
      · rw [if_pos hmt, if_pos hmt]
      · rw [if_neg hmt, if_neg hmt]
        exact elifChain_door_irrelevant _ _ _ (lt_asymm h) d1 d2

/-- Witness for C10 at a concrete dry forecast: door open and door closed
agree. -/
theorem c10_witness :
    rainOf (some [Slot.mk (some 5) (some 0) none]) < rt ∧
    logic ⟨some [⟨some 5, some 0, none⟩], 22, 50, true⟩
      = logic ⟨some [⟨some 5, some 0, none⟩], 22, 50, false⟩ :=
  ⟨by decide,
   c10_door_noninterference (some [⟨some 5, some 0, none⟩]) 22 50 true false
     (by decide)⟩

end HuzzahWeather
